import Mathlib

/-!
# Verification of the AIDungeonMaster client-side game-session logic

Shallow embedding of the session view-model code of the AIDungeonMaster
repository: the `WorkingGameScreen` component (src/unnamed/part_003), the
`SimpleGameScreen` component
(src/frontend/dungeonmaster/src/components/SimpleGameScreen.jsx), the
top-level `App` component (src/frontend/dungeonmaster/src/App.js), the
`HistoryPanel` component (components/HistoryPanel.jsx) and the
stat-presentation helpers of the `PlayerStats` component
(src/unnamed/part_001).

Modelling conventions:
* JavaScript numbers that hold stat values or indices are modelled as `Int`
  (all concrete values in the code are integers).
* `new Date()` timestamps are an opaque `Nat` parameter threaded into the
  operations.
* The axios / fetch response of an outbound call is an input of type
  `Option resp`: `none` models a network failure, a non-2xx status or a
  null `response.data` (all of which throw and land in the `catch` block);
  `some r` models a parsed 2xx JSON body `r`.
* An operation that may throw an uncaught TypeError (reading a field of a
  `null` object) returns `Option`.
* Operations that can issue an outbound HTTP request also return
  `Option ChoiceReq`: `some req` when the request is issued, `none` when
  the code path returns before reaching the axios call.
-/

set_option autoImplicit false

/-- A player-stat value as rendered by the UI: a JS number or a string
(`memory.player_stats` values in the observed payloads). -/
inductive StatVal where
  | int (n : Int)
  | str (s : String)
deriving DecidableEq

/-- The duck-typed `player_stats` object: an ordered string-keyed mapping. -/
abbrev Stats := List (String × StatVal)

/-- One adventure-log entry `{story, choice, timestamp}` as appended by the
GameScreen components.  `choice` is `none` when the JS expression
`gameState.choices[choiceIndex]` evaluated to `undefined`. -/
structure HEntry where
  story : String
  choice : Option String
  ts : Nat
deriving DecidableEq

/-- The `gameState` object `{story, choices, stats}` held by the GameScreen
components. -/
structure GS where
  story : String
  choices : List String
  stats : Stats
deriving DecidableEq

/-- JavaScript array indexing `arr[i]` with a possibly negative index:
`undefined` (here `none`) for out-of-range accesses. -/
def jsGet (l : List String) (i : Int) : Option String :=
  if i < 0 then none else l.get? i.toNat

/-- JavaScript string interpolation of a possibly-`undefined` value. -/
def jsShow (c : Option String) : String :=
  match c with
  | some t => t
  | none => "undefined"

/-- The body of the `POST /api/make-choice` request
`{session_id, choice_index}`. -/
structure ChoiceReq where
  session_id : String
  choice_index : Int
deriving DecidableEq

namespace WG

/-! ## `WorkingGameScreen` (src/unnamed/part_003) -/

/-- Component state: the six `useState` hooks of the component, in source
order (`gameState`, `isLoading`, `error`, `history`, `sessionId`,
`demoMode`). -/
structure State where
  gameState : Option GS
  isLoading : Bool
  error : Option String
  history : List HEntry
  sessionId : Option String
  demoMode : Bool
deriving DecidableEq

/-- The `useState` initial values of the component. -/
def initState : State :=
  { gameState := none, isLoading := true, error := none, history := [],
    sessionId := none, demoMode := false }

/-- The module-level `demoData` constant of part_003. -/
def demoData : GS :=
  { story := "You stand at the entrance of a dark, ancient dungeon. The Dungeon Master awaits your decision.",
    choices :=
      ["Enter the dungeon cautiously",
       "Examine the entrance for traps",
       "Call out to announce your presence"],
    stats :=
      [("name", .str "Adventurer"), ("health", .int 100),
       ("gold", .int 50), ("level", .int 1)] }

/-- Parsed JSON body of a 2xx `POST /api/start-game` response
(`response.data`). -/
structure StartResp where
  success : Bool
  session_id : String
  story : String
  choices : List String
  player_stats : Stats
deriving DecidableEq

/-- Parsed JSON body of a 2xx `POST /api/make-choice` response
(`response.data`). -/
structure ChoiceResp where
  success : Bool
  story : String
  choices : List String
  player_stats : Stats
deriving DecidableEq

/-- `startNewGame` of part_003, run to completion on response `resp`.
The `try` branch adopts the response when `response.data && response.data.success`;
every other outcome (network error, null data, `success: false`) throws into
the `catch` block, which sets `demoMode`, installs `demoData`, clears
`history` and `error` — and leaves `sessionId` untouched.  The `finally`
block clears `isLoading`. -/
def startNewGame (resp : Option StartResp) (s : State) : State :=
  match resp with
  | some r =>
    if r.success then
      { gameState := some { story := r.story, choices := r.choices, stats := r.player_stats },
        isLoading := false, error := none, history := [],
        sessionId := some r.session_id, demoMode := false }
    else
      { s with gameState := some demoData, isLoading := false, error := none,
               history := [], demoMode := true }
  | none =>
      { s with gameState := some demoData, isLoading := false, error := none,
               history := [], demoMode := true }

/-- Replacement choices synthesized by the demo branch of `makeChoice`. -/
def demoNextChoices : List String :=
  ["Continue exploring", "Check your surroundings", "Try something different"]

/-- Replacement story synthesized by the demo branch of `makeChoice`
(template literal over `gameState.choices[choiceIndex]`). -/
def demoNextStory (c : Option String) : String :=
  "You chose: \"" ++ jsShow c ++ "\"\n\nThe adventure continues in demo mode..."

/-- The error message set by the `catch` block of the live branch. -/
def choiceFailMsg : String := "Failed to process your choice. Please try again."

/-- `makeChoice(choiceIndex)` of part_003, run to completion.
* demo branch: appends a history entry snapshotting the current story and
  the selected choice text, then replaces `gameState` locally; no request.
  Reading `gameState.story` on a `null` `gameState` would throw, hence the
  outer `Option`.
* `!sessionId` branch: sets the error message only; no request.
* live branch: sets `isLoading`, appends the history entry when
  `gameState` is non-null, issues the request, then either adopts the
  response (`success`) or keeps `gameState` and sets the error message;
  `finally` clears `isLoading`. -/
def makeChoice (resp : Option ChoiceResp) (choiceIndex : Int) (now : Nat)
    (s : State) : Option (State × Option ChoiceReq) :=
  if s.demoMode then
    match s.gameState with
    | none => none
    | some gs =>
      some ({ s with
        history := s.history ++ [{ story := gs.story, choice := jsGet gs.choices choiceIndex, ts := now }],
        gameState := some { story := demoNextStory (jsGet gs.choices choiceIndex),
                            choices := demoNextChoices, stats := gs.stats } }, none)
  else
    match s.sessionId with
    | none => some ({ s with error := some "No active game session" }, none)
    | some sid =>
      let s1 : State :=
        match s.gameState with
        | some gs =>
          { s with history := s.history ++ [{ story := gs.story, choice := jsGet gs.choices choiceIndex, ts := now }] }
        | none => s
      let req : ChoiceReq := { session_id := sid, choice_index := choiceIndex }
      match resp with
      | some r =>
        if r.success then
          some ({ s1 with
            gameState := some { story := r.story, choices := r.choices, stats := r.player_stats },
            error := none, isLoading := false }, some req)
        else
          some ({ s1 with error := some choiceFailMsg, isLoading := false }, some req)
      | none =>
          some ({ s1 with error := some choiceFailMsg, isLoading := false }, some req)

/-- The choice buttons of part_003 carry `disabled={isLoading}`: a disabled
button dispatches no `onClick`, so a click while loading leaves the state
unchanged and issues no request; otherwise the click runs `makeChoice`. -/
def choiceButtonClick (resp : Option ChoiceResp) (choiceIndex : Int)
    (now : Nat) (s : State) : Option (State × Option ChoiceReq) :=
  if s.isLoading then some (s, none) else makeChoice resp choiceIndex now s

end WG

namespace SGS

/-! ## `SimpleGameScreen` (src/frontend/dungeonmaster/src/components/SimpleGameScreen.jsx) -/

/-- The fixed stat record of the SimpleGameScreen demo data
(`{name, health, gold, level, experience}`). -/
structure SStats where
  name : String
  health : Int
  gold : Int
  level : Int
  experience : Int
deriving DecidableEq

/-- The `gameState` object of SimpleGameScreen. -/
structure SGS0 where
  story : String
  choices : List String
  stats : SStats
deriving DecidableEq

/-- Component state: the three `useState` hooks (`gameState`, `history`,
`isLoading`).  `gameState` is initialised to `demoData`, so it is never
null in this component. -/
structure State where
  gameState : SGS0
  history : List HEntry
  isLoading : Bool
deriving DecidableEq

/-- The module-level `demoData` constant of SimpleGameScreen.jsx. -/
def demoData : SGS0 :=
  { story := "You stand at the entrance of a dark, ancient dungeon. Shadows dance on the weathered stone walls, and a mystical energy fills the air. The Dungeon Master\x27s eyes gleam with ancient wisdom as he presents your options.",
    choices :=
      ["Step forward into the mysterious corridor",
       "Examine the ancient runes carved into the wall",
       "Call out to see if anyone else is nearby"],
    stats := { name := "Brave Adventurer", health := 100, gold := 25,
               level := 1, experience := 0 } }

/-- The `useState` initial values of the component. -/
def initState : State :=
  { gameState := demoData, history := [], isLoading := false }

/-- Replacement choices synthesized by `makeChoice`. -/
def nextChoices : List String :=
  ["Venture deeper into the shadows",
   "Search for hidden treasures",
   "Try to find a way back"]

/-- Replacement story synthesized by `makeChoice` (template literal over
`gameState.choices[choiceIndex]`). -/
def nextStory (c : Option String) : String :=
  "You chose: \"" ++ jsShow c ++ "\"\n\nThe dungeon seems to respond to your decision. New paths appear before you, each more mysterious than the last."

/-- `makeChoice(choiceIndex)` of SimpleGameScreen.jsx: unconditionally
appends a history entry snapshotting the current story and the selected
choice text, then replaces `gameState` with new demo content, spreading the
previous stats with `experience` incremented by 10.  No index validation,
no request, fully synchronous. -/
def makeChoice (choiceIndex : Int) (now : Nat) (s : State) : State :=
  { s with
    history := s.history ++ [{ story := s.gameState.story, choice := jsGet s.gameState.choices choiceIndex, ts := now }],
    gameState :=
      { story := nextStory (jsGet s.gameState.choices choiceIndex),
        choices := nextChoices,
        stats := { s.gameState.stats with experience := s.gameState.stats.experience + 10 } } }

/-- `startNewGame` of SimpleGameScreen.jsx: restores the demo data and
clears the history. -/
def startNewGame (s : State) : State :=
  { s with gameState := demoData, history := [] }

end SGS

namespace AppJs

/-! ## `App` (src/frontend/dungeonmaster/src/App.js) -/

/-- One `storyHistory` entry of App.js: either
`{type: "player", content, timestamp}` or
`{type: "dm", content, choices, timestamp}`. -/
structure AEntry where
  entryType : String
  content : String
  entryChoices : Option (List String)
  ts : Nat
deriving DecidableEq

/-- The slice of App.js component state touched by `makeChoice`
(`sessionId`, `currentStory`, `currentChoices`, `playerStats`,
`storyHistory`, `isLoading`). -/
structure State where
  sessionId : Option String
  currentStory : String
  currentChoices : List String
  playerStats : Option Stats
  storyHistory : List AEntry
  isLoading : Bool
deriving DecidableEq

/-- Parsed body of a successful `gameApi.makeChoice` call
(`player_action`, `story`, `choices`, `player_stats`). -/
structure ChoiceResp where
  player_action : String
  story : String
  choices : List String
  player_stats : Stats
deriving DecidableEq

/-- `makeChoice(choiceIndex)` of App.js, run to completion.
`if (!sessionId) return;` precedes every state update and the outbound
call.  On a successful response the player-action entry is appended, then
`currentStory`/`currentChoices`/`playerStats` are replaced, then the DM
entry is appended — two history entries per successful call.  On failure
(the awaited call throws) only a toast is shown; no state field but
`isLoading` changes. -/
def makeChoice (resp : Option ChoiceResp) (choiceIndex : Int) (now : Nat)
    (s : State) : State × Option ChoiceReq :=
  match s.sessionId with
  | none => (s, none)
  | some sid =>
    let req : ChoiceReq := { session_id := sid, choice_index := choiceIndex }
    match resp with
    | some r =>
      ({ s with
         storyHistory := s.storyHistory ++
           [{ entryType := "player", content := r.player_action, entryChoices := none, ts := now },
            { entryType := "dm", content := r.story, entryChoices := some r.choices, ts := now }],
         currentStory := r.story,
         currentChoices := r.choices,
         playerStats := some r.player_stats,
         isLoading := false }, some req)
    | none => ({ s with isLoading := false }, some req)

end AppJs

/-! ## History windowing (HistoryPanel.jsx and the SimpleGameScreen log) -/

/-- `history.slice(-k).reverse()`: the last `min k length` entries,
most-recent-first.  `slice(-k)` keeps the whole array when `k` exceeds its
length, which `List.drop` with truncated subtraction matches. -/
def historyWindow {α : Type} (k : Nat) (h : List α) : List α :=
  (h.drop (h.length - k)).reverse

/-- The information content of a rendered adventure-log panel: the windowed
entries actually shown, and the hidden-entry note (the `N` of
"... and N earlier entries") when the markup contains one. -/
structure LogView where
  shown : List HEntry
  hiddenNote : Option Nat
deriving DecidableEq

/-- The log rendered by HistoryPanel.jsx: `history.slice(-10).reverse()`,
plus the overflow element `... and {history.length - 10} earlier entries`
rendered exactly when `history.length > 10`. -/
def historyPanelRender (h : List HEntry) : LogView :=
  { shown := historyWindow 10 h,
    hiddenNote := if 10 < h.length then some (h.length - 10) else none }

/-- The log rendered by the SimpleGameScreen sidebar:
`history.slice(-5).reverse()`.  The JSX contains no overflow element, so no
hidden-entry count is ever shown. -/
def simpleLogRender (h : List HEntry) : LogView :=
  { shown := historyWindow 5 h, hiddenNote := none }

/-! ## Stat presentation (`PlayerStats`, src/unnamed/part_001) -/

/-- JavaScript `String.prototype.toLowerCase` on the ASCII stat keys used
here: lower-cases each character (kernel-evaluable counterpart of
`String.toLower`). -/
def jsToLower (s : String) : String := ⟨s.data.map Char.toLower⟩

/-- The icon component selected by `getStatIcon`.  `heart` is the health
category, `coins` the currency category, `shield` the defense category,
`zap` the offense category and `user` the generic fallback. -/
inductive StatIcon where
  | heart
  | coins
  | shield
  | zap
  | user
deriving DecidableEq

/-- `getStatIcon(statKey)` of PlayerStats: a `switch` on
`statKey.toLowerCase()` with fall-through case pairs and a default. -/
def getStatIcon (statKey : String) : StatIcon :=
  let k := jsToLower statKey
  if k = "hp" ∨ k = "health" then .heart
  else if k = "gold" ∨ k = "coins" then .coins
  else if k = "defense" ∨ k = "armor" then .shield
  else if k = "strength" ∨ k = "attack" then .zap
  else .user

/-- `getStatColor(key, value)` of PlayerStats: health keys with a numeric
value get the green/orange/red severity colour, health keys with a
non-numeric value get green, gold keys get gold, everything else the
neutral colour. -/
def getStatColor (key : String) (value : StatVal) : String :=
  let k := jsToLower key
  if k = "hp" ∨ k = "health" then
    match value with
    | .int n => if n > 75 then "#4caf50" else if n > 25 then "#ff9800" else "#f44336"
    | .str _ => "#4caf50"
  else if k = "gold" ∨ k = "coins" then "#ffd700"
  else "#e0c080"

namespace AppJs

/-- Parsed body of a successful `gameApi.startGame` call; App.js reads
`session_id`, `story`, `choices` and `player_stats` from it. -/
structure StartResp where
  session_id : String
  story : String
  choices : List String
  player_stats : Stats
deriving DecidableEq

/-- The `useState` initial values of App.js (`gameState` starts as
`"welcome"`, story empty, choices empty, stats and session null). -/
def appInit : State :=
  { sessionId := none, currentStory := "", currentChoices := [],
    playerStats := none, storyHistory := [], isLoading := false }

/-- `startNewGame(playerName)` of App.js, run to completion.  On success it
adopts the response and moves to the `"playing"` screen; on failure it only
toasts and returns to the `"welcome"` screen — there is no demo fallback in
this component, so story/choices keep their previous (initially empty)
values.  The screen value is returned alongside the state. -/
def startNewGame (resp : Option StartResp) (s : State) : State × String :=
  match resp with
  | some r =>
    ({ s with sessionId := some r.session_id, currentStory := r.story,
              currentChoices := r.choices, playerStats := some r.player_stats,
              storyHistory := [], isLoading := false }, "playing")
  | none => ({ s with isLoading := false }, "welcome")

end AppJs

namespace WG

/-- Sequential execution of live-mode `makeChoice` calls: each list element
is the `(choiceIndex, response, timestamp)` of one completed call. -/
def runLive : State → List (Int × ChoiceResp × Nat) → Option State
  | s, [] => some s
  | s, (idx, r, now) :: rest =>
    match makeChoice (some r) idx now s with
    | some (s2, _) => runLive s2 rest
    | none => none

/-- The history entry that snapshots what is on screen at the moment a
choice is made: the story and the selected choice text offered then. -/
def offeredEntry (s : State) (idx : Int) (now : Nat) : Option HEntry :=
  s.gameState.map fun gs =>
    { story := gs.story, choice := jsGet gs.choices idx, ts := now }

end WG

/-! ## Concrete fixtures used by counterexamples and witnesses -/

/-- A live-session `gameState` reached after a successful start. -/
def liveGS : GS :=
  { story := "The corridor splits.",
    choices := ["Go left", "Go right", "Turn back"],
    stats := [("health", .int 90)] }

/-- A part_003 component state in live mode with an active session. -/
def liveState : WG.State :=
  { gameState := some liveGS, isLoading := false, error := none,
    history := [], sessionId := some "sess-1", demoMode := false }

/-- A part_003 component state in demo mode (the result of a failed
`startNewGame` from the initial state). -/
def demoState : WG.State := WG.startNewGame none WG.initState

/-- A well-formed successful start-game response. -/
def goodStart : WG.StartResp :=
  { success := true, session_id := "sess-1", story := "Dawn breaks.",
    choices := ["March on", "Make camp", "Scout ahead"], player_stats := [] }

/-- A malformed successful start-game response: `success: true` but an
empty story and an empty choice list. -/
def badStart : WG.StartResp :=
  { success := true, session_id := "sid-1", story := "", choices := [],
    player_stats := [] }

/-- A successful make-choice response. -/
def stepResp1 : WG.ChoiceResp :=
  { success := true, story := "A troll appears.",
    choices := ["Fight", "Flee", "Talk"], player_stats := [] }

/-- A second successful make-choice response. -/
def stepResp2 : WG.ChoiceResp :=
  { success := true, story := "You win.",
    choices := ["Loot", "Rest", "Leave"], player_stats := [] }

/-- Two successful live-mode calls. -/
def steps2 : List (Int × WG.ChoiceResp × Nat) :=
  [(0, stepResp1, 1), (2, stepResp2, 2)]

/-- An App.js state in the middle of a live session. -/
def appLiveState : AppJs.State :=
  { sessionId := some "sess-9", currentStory := "intro",
    currentChoices := ["a", "b", "c"], playerStats := none,
    storyHistory := [], isLoading := false }

/-- An App.js state with no active session. -/
def appIdleState : AppJs.State :=
  { sessionId := none, currentStory := "intro",
    currentChoices := ["a", "b", "c"], playerStats := none,
    storyHistory := [], isLoading := false }

/-- A successful App.js make-choice response. -/
def appResp0 : AppJs.ChoiceResp :=
  { player_action := "You go left", story := "A troll appears.",
    choices := ["Fight", "Flee", "Talk"], player_stats := [("health", .int 80)] }

/-- A 12-entry history. -/
def h12 : List HEntry :=
  (List.range 12).map fun i => { story := "scene", choice := none, ts := i }

/-- A 7-entry history. -/
def h7 : List HEntry :=
  (List.range 7).map fun i => { story := "scene", choice := none, ts := i }

example : (WG.startNewGame none WG.initState).demoMode = true := by rfl
example : (WG.startNewGame none WG.initState).gameState = some WG.demoData := by rfl
example : getStatIcon "HP" = .heart := by decide
example : getStatColor "Health" (.int 50) = "#ff9800" := by decide
example : historyWindow 5 [1, 2, 3, 4, 5, 6, 7] = [7, 6, 5, 4, 3] := by rfl

/-! ## Helper lemmas -/

/-- JS indexing yields `undefined` exactly on out-of-range indices. -/
theorem jsGet_out_of_range (l : List String) (i : Int)
    (h : i < 0 ∨ (l.length : Int) ≤ i) : jsGet l i = none := by
  unfold jsGet
  rcases h with h | h
  · simp [h]
  · have h0 : ¬ i < 0 := by omega
    simp only [h0, if_false]
    rw [List.get?_eq_getElem?, List.getElem?_eq_none]
    omega

/-- The windowing projection keeps `min length k` entries. -/
theorem historyWindow_length {α : Type} (k : Nat) (h : List α) :
    (historyWindow k h).length = min h.length k := by
  unfold historyWindow
  simp only [List.length_reverse, List.length_drop]
  omega

/-- The windowing projection is most-recent-first: its `i`-th entry is the
`i`-th entry from the end of the full history. -/
theorem historyWindow_getElem? {α : Type} (k : Nat) (h : List α) (i : Nat)
    (hi : i < (historyWindow k h).length) :
    (historyWindow k h)[i]? = h[h.length - 1 - i]? := by
  have hlen : (historyWindow k h).length = min h.length k := historyWindow_length k h
  unfold historyWindow at *
  have hi' : i < (h.drop (h.length - k)).length := by
    simpa using hi
  rw [List.getElem?_reverse hi', List.getElem?_drop]
  congr 1
  simp only [List.length_drop]
  omega

/-- Anatomy of a live-mode `makeChoice` call of part_003 that receives a
successful response: the pre-call story/choice snapshot is appended to the
history, the response narrative is adopted, and the request carries the
session id and the chosen index. -/
theorem WG.makeChoice_live_success (s : WG.State) (gs : GS) (sid : String)
    (r : WG.ChoiceResp) (idx : Int) (now : Nat)
    (hd : s.demoMode = false) (hs : s.sessionId = some sid)
    (hg : s.gameState = some gs) (hr : r.success = true) :
    WG.makeChoice (some r) idx now s =
      some ({ s with
        history := s.history ++ [{ story := gs.story, choice := jsGet gs.choices idx, ts := now }],
        gameState := some { story := r.story, choices := r.choices, stats := r.player_stats },
        error := none, isLoading := false },
        some { session_id := sid, choice_index := idx }) := by
  simp [WG.makeChoice, hd, hs, hg, hr]

/-- Anatomy of a live-mode `makeChoice` call of part_003 whose backend call
fails (throws, or answers `success: false`): the pre-request history entry
is kept, the retry error message is set, `isLoading` is cleared, and every
other field is untouched. -/
theorem WG.makeChoice_live_fail (s : WG.State) (gs : GS) (sid : String)
    (resp : Option WG.ChoiceResp) (idx : Int) (now : Nat)
    (hd : s.demoMode = false) (hs : s.sessionId = some sid)
    (hg : s.gameState = some gs)
    (hfail : resp = none ∨ ∃ r, resp = some r ∧ r.success = false) :
    WG.makeChoice resp idx now s =
      some ({ s with
        history := s.history ++ [{ story := gs.story, choice := jsGet gs.choices idx, ts := now }],
        error := some WG.choiceFailMsg, isLoading := false },
        some { session_id := sid, choice_index := idx }) := by
  rcases hfail with h | ⟨r, hr, hfalse⟩
  · subst h
    simp [WG.makeChoice, hd, hs, hg]
  · subst hr
    simp [WG.makeChoice, hd, hs, hg, hfalse]

/-! ## Claim theorems -/

/-- Claim C10 (confirmed): `makeChoice` of App.js with a null `sessionId`
returns before any state update and before the outbound call: the state is
returned unchanged and no request is issued. -/
theorem c10_null_session_noop (resp : Option AppJs.ChoiceResp) (idx : Int)
    (now : Nat) (s : AppJs.State) (h : s.sessionId = none) :
    AppJs.makeChoice resp idx now s = (s, none) := by
  unfold AppJs.makeChoice
  rw [h]

/-- Claim C10 witness: the theorem applied to a concrete idle state. -/
theorem c10_null_session_noop_witness :
    AppJs.makeChoice (some appResp0) 2 5 appIdleState = (appIdleState, none) :=
  c10_null_session_noop (some appResp0) 2 5 appIdleState rfl

/-- Claim C9 (confirmed): the demo branch of part_003's `makeChoice`
replaces the story and choices but passes `gameState.stats` through
unchanged, and issues no request. -/
theorem c9_demo_stats_frame (resp : Option WG.ChoiceResp) (idx : Int)
    (now : Nat) (s : WG.State) (gs : GS)
    (hd : s.demoMode = true) (hg : s.gameState = some gs)
    (_hidx : 0 ≤ idx ∧ idx < (gs.choices.length : Int)) :
    ∃ s2, WG.makeChoice resp idx now s = some (s2, none) ∧
      ∃ g, s2.gameState = some g ∧ g.stats = gs.stats := by
  simp only [WG.makeChoice, hd, hg, if_true]
  exact ⟨_, rfl, _, rfl, rfl⟩

/-- Claim C9 witness: the theorem applied to the concrete demo state. -/
theorem c9_demo_stats_frame_witness :
    ∃ s2, WG.makeChoice none 1 3 demoState = some (s2, none) ∧
      ∃ g, s2.gameState = some g ∧ g.stats = WG.demoData.stats :=
  c9_demo_stats_frame none 1 3 demoState WG.demoData rfl rfl (by decide)

/-- Claim C5 (confirmed): a live-mode `makeChoice` of part_003 whose
backend call fails (throws, or answers `success: false`) ends with the
pre-request history entry kept, the retry error message set, `isLoading`
cleared, and every other field — `gameState` (story/choices/stats),
`sessionId`, `demoMode` — exactly as before, so the session is back in
live mode and the same choice can be retried. -/
theorem c5_live_failure (s : WG.State) (gs : GS) (sid : String)
    (resp : Option WG.ChoiceResp) (idx : Int) (now : Nat)
    (hd : s.demoMode = false) (hs : s.sessionId = some sid)
    (hg : s.gameState = some gs)
    (hfail : resp = none ∨ ∃ r, resp = some r ∧ r.success = false) :
    WG.makeChoice resp idx now s =
      some ({ s with
        history := s.history ++ [{ story := gs.story, choice := jsGet gs.choices idx, ts := now }],
        error := some WG.choiceFailMsg, isLoading := false },
        some { session_id := sid, choice_index := idx }) :=
  WG.makeChoice_live_fail s gs sid resp idx now hd hs hg hfail

/-- Claim C5 witness: the theorem applied to a concrete live state with a
network failure; story, choices, stats and session survive, the appended
entry and the error message are present, and the request was issued. -/
theorem c5_live_failure_witness :
    (WG.makeChoice none 0 7 liveState).map
        (fun p => (p.1.error, p.1.isLoading, p.1.history.length, p.1.gameState, p.2)) =
      some (some WG.choiceFailMsg, false, 1, some liveGS,
        some { session_id := "sess-1", choice_index := 0 }) := by
  rw [c5_live_failure liveState liveGS "sess-1" none 0 7 rfl rfl rfl (Or.inl rfl)]
  rfl

/-- Claim C2 counterexample: `makeChoice(5)` on the SimpleGameScreen demo
state (3 choices, so 5 is out of range) is not rejected: it appends a
history entry and changes the session state. -/
theorem c2_invalid_choice_cex :
    (SGS.makeChoice 5 0 SGS.initState).history.length = 1 ∧
    SGS.makeChoice 5 0 SGS.initState ≠ SGS.initState := by
  refine ⟨rfl, ?_⟩
  decide

/-- Claim C2 as amended: SimpleGameScreen's `makeChoice` performs no
client-side index validation.  An out-of-range index (negative or at least
`choices.length`) is processed like any other: a history entry whose
recorded choice is `undefined` is appended, the story and choices are
replaced by the demo follow-up, and `experience` is bumped — the session
state is changed, not left intact. -/
theorem c2_invalid_choice_amended (s : SGS.State) (idx : Int) (now : Nat)
    (h : idx < 0 ∨ (s.gameState.choices.length : Int) ≤ idx) :
    SGS.makeChoice idx now s =
      { s with
        history := s.history ++ [{ story := s.gameState.story, choice := none, ts := now }],
        gameState :=
          { story := SGS.nextStory none, choices := SGS.nextChoices,
            stats := { s.gameState.stats with
                       experience := s.gameState.stats.experience + 10 } } } := by
  have hg : jsGet s.gameState.choices idx = none := jsGet_out_of_range _ _ h
  simp [SGS.makeChoice, hg]

/-- Claim C2 witness: the amended theorem applied at index 5 on the initial
demo state. -/
theorem c2_invalid_choice_amended_witness :
    (SGS.makeChoice 5 11 SGS.initState).history =
      [{ story := SGS.demoData.story, choice := none, ts := 11 }] := by
  rw [c2_invalid_choice_amended SGS.initState 5 11 (Or.inr (by decide))]
  rfl

/-- Claim C8 counterexample: a `startNewGame` that falls back to demo mode
after a previous live session keeps the previous session id in the state
instead of setting it to null. -/
theorem c8_sessionId_cex :
    (WG.startNewGame none (WG.startNewGame (some goodStart) WG.initState)).sessionId
        = some "sess-1" ∧
    (WG.startNewGame none (WG.startNewGame (some goodStart) WG.initState)).demoMode
        = true :=
  ⟨rfl, rfl⟩

/-- Claim C8 as amended: a successful `begin` installs the fresh session id
and clears the history; a failed `begin` enters demo mode and clears the
history but leaves `sessionId` at its previous value (null only when no
live session preceded it), so after a prior live session the stale id
remains in the state. -/
theorem c8_sessionId_amended :
    (∀ (s : WG.State) (r : WG.StartResp), r.success = true →
      WG.startNewGame (some r) s =
        { gameState := some { story := r.story, choices := r.choices, stats := r.player_stats },
          isLoading := false, error := none, history := [],
          sessionId := some r.session_id, demoMode := false }) ∧
    (∀ s : WG.State,
      (WG.startNewGame none s).sessionId = s.sessionId ∧
      (WG.startNewGame none s).demoMode = true ∧
      (WG.startNewGame none s).history = [] ∧
      (WG.startNewGame none s).gameState = some WG.demoData) := by
  constructor
  · intro s r h
    simp [WG.startNewGame, h]
  · intro s
    exact ⟨rfl, rfl, rfl, rfl⟩

/-- Claim C8 witness: a successful begin from the initial state adopts the
fresh id `sess-1` and an empty history. -/
theorem c8_sessionId_amended_witness :
    WG.startNewGame (some goodStart) WG.initState =
      { gameState := some { story := goodStart.story, choices := goodStart.choices,
                            stats := goodStart.player_stats },
        isLoading := false, error := none, history := [],
        sessionId := some goodStart.session_id, demoMode := false } :=
  c8_sessionId_amended.1 WG.initState goodStart rfl

/-- Claim C1 counterexample: two concrete begins that violate the claim.
App.js's `startNewGame` on failure returns to the `"welcome"` screen with
the story and choice list left empty — it has no demo fallback; and
part_003's `startNewGame` adopts a malformed `success: true` response
verbatim, ending live with an empty story and zero choices. -/
theorem c1_begin_cex :
    ((AppJs.startNewGame none AppJs.appInit).2 = "welcome" ∧
     (AppJs.startNewGame none AppJs.appInit).1.currentStory = "" ∧
     (AppJs.startNewGame none AppJs.appInit).1.currentChoices = []) ∧
    (WG.startNewGame (some badStart) WG.initState).gameState.map
        (fun g => (g.story, g.choices.length)) = some ("", 0) :=
  ⟨⟨rfl, rfl, rfl⟩, rfl⟩

/-- Claim C1 as amended: the availability guarantee holds for part_003's
`startNewGame`.  Whenever a `success: true` response carries 3 choices and
a non-empty story (the backend contract), every completed begin — success
or failure — ends non-loading with a non-null `gameState` holding exactly 3
choices and a non-empty story, in demo mode (failure: the fixed demo data)
or live mode (success: a session id is present).  App.js's variant has no
demo fallback (see the counterexample), and a malformed success response is
adopted verbatim. -/
theorem c1_begin_amended (s : WG.State) (resp : Option WG.StartResp)
    (hwf : ∀ r, resp = some r → r.success = true →
      r.choices.length = 3 ∧ r.story ≠ "") :
    ∃ g, (WG.startNewGame resp s).gameState = some g ∧
      g.choices.length = 3 ∧ g.story ≠ "" ∧
      ((WG.startNewGame resp s).demoMode = true ∨
        (WG.startNewGame resp s).sessionId.isSome = true) ∧
      (WG.startNewGame resp s).isLoading = false := by
  cases resp with
  | none =>
    exact ⟨WG.demoData, rfl, rfl, by decide, Or.inl rfl, rfl⟩
  | some r =>
    by_cases hs : r.success
    · obtain ⟨h3, hne⟩ := hwf r rfl hs
      refine ⟨{ story := r.story, choices := r.choices, stats := r.player_stats },
        ?_, h3, hne, Or.inr ?_, ?_⟩ <;> simp [WG.startNewGame, hs]
    · refine ⟨WG.demoData, ?_, rfl, by decide, Or.inl ?_, ?_⟩ <;>
        simp [WG.startNewGame, hs]

/-- Claim C1 witness: the amended theorem applied to a backend failure from
the initial state. -/
theorem c1_begin_amended_witness :
    ∃ g, (WG.startNewGame none WG.initState).gameState = some g ∧
      g.choices.length = 3 ∧ g.story ≠ "" ∧
      ((WG.startNewGame none WG.initState).demoMode = true ∨
        (WG.startNewGame none WG.initState).sessionId.isSome = true) ∧
      (WG.startNewGame none WG.initState).isLoading = false :=
  c1_begin_amended WG.initState none (fun r hr => by cases hr)

/-- Claim C4 counterexample: part_003's `makeChoice` invoked while
`isLoading` is set (a request in flight) on a live session is accepted: it
appends a history entry, issues the outbound request, and reports no busy
condition (the error field ends up cleared by the success path). -/
theorem c4_busy_cex :
    (WG.makeChoice (some stepResp1) 0 2 { liveState with isLoading := true }).map
        (fun p => (p.1.history.length, p.2.isSome, p.1.error)) =
      some (1, true, none) :=
  rfl

/-- Claim C4 as amended: nothing in `makeChoice` itself rejects a call
while `mode == loading` — invoked directly on a loading live state it
proceeds, appending a history entry and issuing the request, and never
reports a busy condition.  The only concurrency guard is in the rendering
layer: the choice buttons carry `disabled={isLoading}`, so a click while
loading dispatches nothing and leaves the state (and history length)
unchanged with no request issued. -/
theorem c4_busy_amended (resp : Option WG.ChoiceResp) (idx : Int) (now : Nat)
    (s : WG.State) (hl : s.isLoading = true) :
    WG.choiceButtonClick resp idx now s = some (s, none) ∧
    (s.demoMode = false → ∀ sid gs, s.sessionId = some sid →
      s.gameState = some gs →
      ∃ s2, WG.makeChoice resp idx now s =
          some (s2, some { session_id := sid, choice_index := idx }) ∧
        s2.history.length = s.history.length + 1) := by
  constructor
  · simp [WG.choiceButtonClick, hl]
  · intro hd sid gs hs hg
    cases resp with
    | none =>
      exact ⟨_, WG.makeChoice_live_fail s gs sid none idx now hd hs hg (Or.inl rfl),
        by simp⟩
    | some r =>
      by_cases hr : r.success
      · exact ⟨_, WG.makeChoice_live_success s gs sid r idx now hd hs hg hr, by simp⟩
      · exact ⟨_, WG.makeChoice_live_fail s gs sid (some r) idx now hd hs hg
          (Or.inr ⟨r, rfl, by simpa using hr⟩), by simp⟩

/-- Claim C4 witness: the amended theorem applied to a concrete loading
live state: the guarded button click is a no-op without a request, and the
raw call appends one history entry. -/
theorem c4_busy_amended_witness :
    WG.choiceButtonClick none 0 2 { liveState with isLoading := true } =
      some ({ liveState with isLoading := true }, none) ∧
    ∃ s2, WG.makeChoice none 0 2 { liveState with isLoading := true } =
        some (s2, some { session_id := "sess-1", choice_index := 0 }) ∧
      s2.history.length = 1 := by
  have h := c4_busy_amended none 0 2 { liveState with isLoading := true } rfl
  exact ⟨h.1, h.2 rfl "sess-1" liveGS rfl rfl⟩

/-- Claim C6 (confirmed): the stat presentation is a pure total mapping.
Key matching is case-insensitive (`toLowerCase`): hp/health select the
heart (health) icon, gold/coins the coins (currency) icon, defense/armor
the shield (defense) icon, strength/attack the zap (offense) icon, and any
other key the user (generic) icon.  For a health key with a numeric value
the colour is the nominal green above 75, the caution orange between 26 and
75, and the critical red at or below 25; and on any key/value pair the
colour function returns one of its five fixed colours — it never fails on
unrecognized keys or non-numeric values. -/
theorem c6_stat_mapping :
    (∀ k : String, jsToLower k = "hp" ∨ jsToLower k = "health" →
      getStatIcon k = .heart) ∧
    (∀ k : String, jsToLower k = "gold" ∨ jsToLower k = "coins" →
      getStatIcon k = .coins) ∧
    (∀ k : String, jsToLower k = "defense" ∨ jsToLower k = "armor" →
      getStatIcon k = .shield) ∧
    (∀ k : String, jsToLower k = "strength" ∨ jsToLower k = "attack" →
      getStatIcon k = .zap) ∧
    (∀ k : String, jsToLower k ∉
        (["hp", "health", "gold", "coins", "defense", "armor", "strength", "attack"] : List String) →
      getStatIcon k = .user) ∧
    (∀ (k : String) (n : Int), jsToLower k = "hp" ∨ jsToLower k = "health" →
      (75 < n → getStatColor k (.int n) = "#4caf50") ∧
      (26 ≤ n ∧ n ≤ 75 → getStatColor k (.int n) = "#ff9800") ∧
      (n ≤ 25 → getStatColor k (.int n) = "#f44336")) ∧
    (∀ (k : String) (v : StatVal), getStatColor k v ∈
      (["#4caf50", "#ff9800", "#f44336", "#ffd700", "#e0c080"] : List String)) := by
  refine ⟨?_, ?_, ?_, ?_, ?_, ?_, ?_⟩
  · intro k h
    rcases h with h | h <;> simp [getStatIcon, h]
  · intro k h
    rcases h with h | h <;> simp [getStatIcon, h]
  · intro k h
    rcases h with h | h <;> simp [getStatIcon, h]
  · intro k h
    rcases h with h | h <;> simp [getStatIcon, h]
  · intro k h
    simp only [List.mem_cons, List.not_mem_nil, or_false, not_or] at h
    obtain ⟨h1, h2, h3, h4, h5, h6, h7, h8⟩ := h
    simp [getStatIcon, h1, h2, h3, h4, h5, h6, h7, h8]
  · intro k n h
    refine ⟨?_, ?_, ?_⟩ <;> intro hn
    · rcases h with h | h <;>
        · have : n > 75 := by omega
          simp [getStatColor, h, this]
    · rcases h with h | h <;>
        · have h1 : ¬ n > 75 := by omega
          have h2 : n > 25 := by omega
          simp [getStatColor, h, h1, h2]
    · rcases h with h | h <;>
        · have h1 : ¬ n > 75 := by omega
          have h2 : ¬ n > 25 := by omega
          simp [getStatColor, h, h1, h2]
  · intro k v
    unfold getStatColor
    by_cases h1 : jsToLower k = "hp" ∨ jsToLower k = "health"
    · cases v with
      | int n =>
        by_cases h75 : n > 75
        · simp [h1, h75]
        · by_cases h25 : n > 25 <;> simp [h1, h75, h25]
      | str t => simp [h1]
    · by_cases h2 : jsToLower k = "gold" ∨ jsToLower k = "coins" <;>
        simp [h1, h2]

/-- Claim C6 witness: the theorem applied to the concrete examples of the
spec: `HP` is a health key, `Gold` a currency key, `mana` generic, and
health values 80/50/10 map to the nominal/caution/critical colours. -/
theorem c6_stat_mapping_witness :
    getStatIcon "HP" = .heart ∧ getStatIcon "Gold" = .coins ∧
    getStatIcon "mana" = .user ∧
    getStatColor "health" (.int 80) = "#4caf50" ∧
    getStatColor "health" (.int 50) = "#ff9800" ∧
    getStatColor "health" (.int 10) = "#f44336" := by
  obtain ⟨h1, h2, -, -, h5, h6, -⟩ := c6_stat_mapping
  exact ⟨h1 "HP" (by decide), h2 "Gold" (by decide), h5 "mana" (by decide),
    (h6 "health" 80 (by decide)).1 (by decide),
    (h6 "health" 50 (by decide)).2.1 (by decide),
    (h6 "health" 10 (by decide)).2.2 (by decide)⟩

/-- Claim C7 counterexample: the SimpleGameScreen log with a 7-entry
history hides 2 entries (only the last 5 are shown) but exposes no
hidden-entry count — its markup has no overflow element. -/
theorem c7_window_cex :
    (simpleLogRender h7).hiddenNote = none ∧ 5 < h7.length ∧
    (simpleLogRender h7).shown.length = 5 :=
  ⟨rfl, by decide, by decide⟩

/-- Claim C7 as amended: both log panels window purely — the last
`min L K` entries, most-recent-first (entry `i` of the projection is entry
`L - 1 - i` of the history) — but the hidden-entry count `L − K` is
exposed only by the 10-entry HistoryPanel (exactly when `L > 10`); the
5-entry SimpleGameScreen log never shows one. -/
theorem c7_window_amended (h : List HEntry) :
    (historyPanelRender h).shown.length = min h.length 10 ∧
    (simpleLogRender h).shown.length = min h.length 5 ∧
    (∀ i : Nat, i < (historyPanelRender h).shown.length →
      (historyPanelRender h).shown[i]? = h[h.length - 1 - i]?) ∧
    (∀ i : Nat, i < (simpleLogRender h).shown.length →
      (simpleLogRender h).shown[i]? = h[h.length - 1 - i]?) ∧
    (10 < h.length → (historyPanelRender h).hiddenNote = some (h.length - 10)) ∧
    (h.length ≤ 10 → (historyPanelRender h).hiddenNote = none) ∧
    (simpleLogRender h).hiddenNote = none := by
  refine ⟨historyWindow_length 10 h, historyWindow_length 5 h,
    fun i hi => historyWindow_getElem? 10 h i hi,
    fun i hi => historyWindow_getElem? 5 h i hi, ?_, ?_, rfl⟩
  · intro hlen
    simp [historyPanelRender, hlen]
  · intro hlen
    have hno : ¬ 10 < h.length := by omega
    simp [historyPanelRender, hno]

/-- Claim C7 witness: the amended theorem applied to the concrete 12-entry
history: 10 entries shown, 2 reported hidden, and the first shown entry is
the most recent one (index 11 of the history). -/
theorem c7_window_amended_witness :
    (historyPanelRender h12).hiddenNote = some 2 ∧
    (historyPanelRender h12).shown.length = 10 ∧
    (historyPanelRender h12).shown[0]? =
      some { story := "scene", choice := none, ts := 11 } := by
  obtain ⟨l10, -, -, -, hn, -, -⟩ := c7_window_amended h12
  exact ⟨hn (by decide), l10.trans (by decide), by decide⟩

/-- Claim C3 counterexample: a single successful `makeChoice` in App.js
appends two history entries (the player action and the DM response, both
taken from the backend response), not one. -/
theorem c3_history_cex :
    (AppJs.makeChoice (some appResp0) 0 4 appLiveState).1.storyHistory.length = 2 ∧
    (AppJs.makeChoice (some appResp0) 0 4 appLiveState).1.storyHistory.map
        (fun e => e.entryType) = ["player", "dm"] :=
  ⟨rfl, rfl⟩

/-- Claim C3 as amended: in the part_003 GameScreen, a run of N successful
live-mode `makeChoice` calls appends exactly N history entries (so from the
empty post-begin history, `history.length = N`), and the i-th appended
entry snapshots the story and the selected choice text offered at the
moment of call i — the state reached after the first i calls — not the
text current at read time.  App.js instead appends two backend-derived
entries per successful call (see the counterexample). -/
theorem c3_history_amended :
    ∀ (steps : List (Int × WG.ChoiceResp × Nat)) (s : WG.State),
      s.demoMode = false → s.sessionId.isSome = true →
      s.gameState.isSome = true →
      (∀ st ∈ steps, st.2.1.success = true) →
      ∃ s2 t, WG.runLive s steps = some s2 ∧
        s2.history = s.history ++ t ∧ t.length = steps.length ∧
        ∀ (i : Nat) (idx : Int) (r : WG.ChoiceResp) (now : Nat),
          steps[i]? = some (idx, r, now) →
          ∃ si, WG.runLive s (steps.take i) = some si ∧
            t[i]? = WG.offeredEntry si idx now := by
  intro steps
  induction steps with
  | nil =>
    intro s _ _ _ _
    exact ⟨s, [], rfl, by simp, rfl, fun i idx r now hi => by simp at hi⟩
  | cons head rest ih =>
    obtain ⟨idx0, r0, now0⟩ := head
    intro s hd hsid hgs hsucc
    obtain ⟨sid, hs⟩ := Option.isSome_iff_exists.mp hsid
    obtain ⟨gs, hg⟩ := Option.isSome_iff_exists.mp hgs
    have hr0 : r0.success = true := hsucc (idx0, r0, now0) (by simp)
    have hm := WG.makeChoice_live_success s gs sid r0 idx0 now0 hd hs hg hr0
    have hrun1 : ∀ l, WG.runLive s ((idx0, r0, now0) :: l) =
        WG.runLive { s with
          history := s.history ++ [{ story := gs.story, choice := jsGet gs.choices idx0, ts := now0 }],
          gameState := some { story := r0.story, choices := r0.choices, stats := r0.player_stats },
          error := none, isLoading := false } l := by
      intro l
      simp [WG.runLive, hm]
    obtain ⟨s2, t2, hrun2, hhist2, hlen2, hidx2⟩ :=
      ih { s with
            history := s.history ++ [{ story := gs.story, choice := jsGet gs.choices idx0, ts := now0 }],
            gameState := some { story := r0.story, choices := r0.choices, stats := r0.player_stats },
            error := none, isLoading := false }
        hd hsid rfl (fun st hst => hsucc st (by simp [hst]))
    refine ⟨s2, { story := gs.story, choice := jsGet gs.choices idx0, ts := now0 } :: t2,
      ?_, ?_, ?_, ?_⟩
    · rw [hrun1]
      exact hrun2
    · rw [hhist2]
      simp
    · simp [hlen2]
    · intro i idx r now hi
      cases i with
      | zero =>
        simp only [List.getElem?_cons_zero, Option.some.injEq, Prod.mk.injEq] at hi
        obtain ⟨h1, h2, h3⟩ := hi
        subst h1
        subst h2
        subst h3
        exact ⟨s, rfl, by simp [WG.offeredEntry, hg]⟩
      | succ j =>
        simp only [List.getElem?_cons_succ] at hi
        obtain ⟨si, hsi, hti⟩ := hidx2 j idx r now hi
        refine ⟨si, ?_, by simpa using hti⟩
        rw [List.take_succ_cons, hrun1]
        exact hsi

/-- Claim C3 witness: the amended theorem applied to two concrete
successful live calls from a concrete live state. -/
theorem c3_history_amended_witness :
    ∃ s2 t, WG.runLive liveState steps2 = some s2 ∧
      s2.history = liveState.history ++ t ∧ t.length = steps2.length ∧
      ∀ (i : Nat) (idx : Int) (r : WG.ChoiceResp) (now : Nat),
        steps2[i]? = some (idx, r, now) →
        ∃ si, WG.runLive liveState (steps2.take i) = some si ∧
          t[i]? = WG.offeredEntry si idx now :=
  c3_history_amended steps2 liveState rfl rfl rfl (by decide)
